import Mathlib

/-!
Verification development for the Project Prometheus coordination runtime.

This file gives a shallow embedding, in Lean, of the parts of the source
relevant to the task state machine, the agent runtime's task executor, the
in-memory event bus, the in-memory repository, the task service, the agent
manager's hierarchy maintenance, and the safety interlock (Themis), and
proves properties of those definitions.

Conventions of the embedding:
* Python `datetime.utcnow()` timestamps are modelled as an explicit `now : Nat`
  argument threaded into the mutating operations.
* Python exceptions are modelled with `Except String`: the role-specific task
  action (`_execute_task_internal`) is passed in as an `Except String String`
  value, `.error e` standing for an action that raised an exception whose text
  is `e`, `.ok r` for an action returning result payload `r`.
* Message sending (`BaseAgent.send_message`) is modelled by emitting the sent
  messages into a result list, in send order; repository saves are likewise
  modelled by a list of the saved snapshots, in save order.
* Python float scores and thresholds are modelled as rationals (`ℚ`); the
  source only ever compares them against constant thresholds, so this is
  faithful to the comparisons performed.
* Python dicts keyed by `str(id)` are modelled as association lists
  `List (String × α)` with first-match lookup, in-place overwrite, and
  key deletion, mirroring insertion-ordered dict semantics.
-/

namespace Prometheus

/-- Task execution status, from `TaskStatus` in `core/domain.py`. -/
inductive TaskStatus where
  | pending
  | inProgress
  | completed
  | failed
  | cancelled
deriving DecidableEq, Repr

/-- Task priority levels, from `Priority` in `core/domain.py`. -/
inductive Priority where
  | low
  | medium
  | high
  | critical
deriving DecidableEq, Repr

/-- Task entity, from `Task` in `core/domain.py`.  Identifiers are modelled
as their string form (the source keys every store by `str(id)`); the
`result` payload is opaque to the runtime and modelled as a string. -/
structure Task where
  id : String
  agentId : String
  name : String
  description : String
  priority : Priority
  status : TaskStatus
  createdAt : Nat
  updatedAt : Nat
  completedAt : Option Nat
  result : Option String
  error : Option String
deriving DecidableEq, Repr

/-- `Task.mark_in_progress` from `core/domain.py`: sets status to
in-progress and refreshes `updated_at`, unconditionally. -/
def Task.markInProgress (t : Task) (now : Nat) : Task :=
  { t with status := .inProgress, updatedAt := now }

/-- `Task.mark_completed` from `core/domain.py`. -/
def Task.markCompleted (t : Task) (result : String) (now : Nat) : Task :=
  { t with status := .completed, result := some result,
           completedAt := some now, updatedAt := now }

/-- `Task.mark_failed` from `core/domain.py`. -/
def Task.markFailed (t : Task) (error : String) (now : Nat) : Task :=
  { t with status := .failed, error := some error, updatedAt := now }

/-- Safety check result, from `SafetyCheck` in `core/domain.py`.  Status is
one of "passed"/"warning"/"failed", severity one of
"low"/"medium"/"high"/"critical", both kept as strings as in the source. -/
structure SafetyCheck where
  checkType : String
  status : String
  message : String
  severity : String
deriving DecidableEq, Repr

/-- Outcome of `BaseAgent.execute_task`: the task object returned to the
caller together with the ordered list of snapshots saved to the task
repository during the call. -/
structure ExecOutcome where
  task : Task
  saved : List Task
deriving DecidableEq, Repr

/-- `BaseAgent.execute_task` from `core/base_agent.py` (lines 152-180).

Control flow of the source, mirrored exactly:
1. `task.mark_in_progress()` — unconditionally, with no check of the
   task's current status;
2. save the in-progress snapshot when a repository is configured;
3. run `_perform_safety_checks`; if any returned check has status
   `"failed"`, `task.mark_failed("Safety check failed")` and `return task`
   from inside the `try` block — skipping the final save;
4. otherwise run the role-specific action: on `.ok r`,
   `task.mark_completed(r)`; an exception `.error e` is caught by the
   `except` clause, which does `task.mark_failed(str(e))`;
5. in paths 4, save the final snapshot when a repository is configured,
   and return the task.

The safety-check battery is passed in as the list it returns, and the
role-specific action as its `Except` outcome, since both are
subclass-provided seams. -/
def BaseAgent.executeTask (repoConfigured : Bool) (safetyChecks : List SafetyCheck)
    (action : Except String String) (now : Nat) (task : Task) : ExecOutcome :=
  let t1 := task.markInProgress now
  let saved1 := if repoConfigured then [t1] else []
  if safetyChecks.any (fun check => check.status == "failed") then
    { task := t1.markFailed "Safety check failed" now, saved := saved1 }
  else
    let t2 := match action with
      | .ok r => t1.markCompleted r now
      | .error e => t1.markFailed e now
    { task := t2, saved := saved1 ++ (if repoConfigured then [t2] else []) }

/-- A sample task in a terminal (completed) state. -/
def completedTask : Task :=
  { id := "t1", agentId := "a1", name := "analysis", description := "",
    priority := .medium, status := .completed, createdAt := 0, updatedAt := 1,
    completedAt := some 1, result := some "old-result", error := none }

/-- A sample task in the initial pending state. -/
def pendingTask : Task :=
  { id := "t2", agentId := "a1", name := "analysis", description := "",
    priority := .high, status := .pending, createdAt := 0, updatedAt := 0,
    completedAt := none, result := none, error := none }

/-- A safety check with status "failed", as produced by a rejecting
safety pre-check battery. -/
def rejectingCheck : SafetyCheck :=
  { checkType := "containment", status := "failed",
    message := "containment risk", severity := "high" }

/-- C1 counterexample: `execute_task` on a task already in the terminal
`completed` state is not a no-op and is not rejected: it regresses the task
to `in_progress` (the first repository save is an in-progress snapshot) and
re-runs the role action, overwriting the previous result. -/
theorem executeTask_terminal_not_noop :
    ((BaseAgent.executeTask true [] (.ok "new-result") 5 completedTask).saved.map
        (fun t => t.status) = [.inProgress, .completed])
    ∧ (BaseAgent.executeTask true [] (.ok "new-result") 5 completedTask).task.result
        = some "new-result"
    ∧ (BaseAgent.executeTask true [] (.ok "new-result") 5 completedTask).task.result
        ≠ completedTask.result := by
  decide

/-- C1 amended: `execute_task` performs no terminal-state guard at all.  For
a task in any status — terminal or not — it first transitions the task to
`in_progress` (and saves that snapshot when a repository is configured) and
then re-executes it, ending in `completed` or `failed` as determined solely
by the safety checks and the role action. -/
theorem executeTask_always_reruns (safetyChecks : List SafetyCheck)
    (action : Except String String) (now : Nat) (task : Task) :
    ((BaseAgent.executeTask true safetyChecks action now task).saved.head?.map
        (fun t => t.status) = some .inProgress)
    ∧ ((BaseAgent.executeTask true safetyChecks action now task).task.status = .completed
        ∨ (BaseAgent.executeTask true safetyChecks action now task).task.status = .failed) := by
  unfold BaseAgent.executeTask
  by_cases h : safetyChecks.any (fun check => check.status == "failed") = true
  · simp [h, Task.markFailed, Task.markInProgress]
  · simp [h, Task.markInProgress]
    cases action with
    | ok r => simp [Task.markCompleted]
    | error e => simp [Task.markFailed]

/-- C2: on the safety-rejection path, `execute_task` returns from inside the
`try` block and skips the final repository save: the returned task has
status `failed`, but the only snapshot ever saved is the `in_progress` one,
so the repository is left holding a stale in-progress state.  This
contradicts the documented contract that the final state is always
persisted before returning. -/
theorem executeTask_safety_reject_skips_final_save :
    (BaseAgent.executeTask true [rejectingCheck] (.ok "r") 5 pendingTask).task.status = .failed
    ∧ ((BaseAgent.executeTask true [rejectingCheck] (.ok "r") 5 pendingTask).saved.map
        (fun t => t.status) = [.inProgress]) := by
  decide

/-- C5: any exception raised by the role-specific task action (here the
action outcome `.error e`) is caught: the task returned by `execute_task`
has status `failed` and its error field is the exception text, and — since
the embedded executor is a total function — the exception never propagates
to the caller.  The final failed snapshot is also saved when a repository
is configured. -/
theorem executeTask_action_exception_becomes_failed (repoConfigured : Bool)
    (safetyChecks : List SafetyCheck) (e : String) (now : Nat) (task : Task)
    (hchecks : safetyChecks.any (fun check => check.status == "failed") = false) :
    (BaseAgent.executeTask repoConfigured safetyChecks (.error e) now task).task.status = .failed
    ∧ (BaseAgent.executeTask repoConfigured safetyChecks (.error e) now task).task.error = some e
    ∧ (repoConfigured = true →
        (BaseAgent.executeTask repoConfigured safetyChecks (.error e) now task).saved.getLast?
          = some ((task.markInProgress now).markFailed e now)) := by
  unfold BaseAgent.executeTask
  simp [hchecks, Task.markFailed, Task.markInProgress]
  intro hrepo
  simp [hrepo]

/-- Witness for C5's theorem at a concrete input. -/
theorem executeTask_action_exception_becomes_failed_witness :
    (BaseAgent.executeTask true [] (.error "boom") 7 pendingTask).task.status = .failed
    ∧ (BaseAgent.executeTask true [] (.error "boom") 7 pendingTask).task.error = some "boom"
    ∧ (true = true →
        (BaseAgent.executeTask true [] (.error "boom") 7 pendingTask).saved.getLast?
          = some ((pendingTask.markInProgress 7).markFailed "boom" 7)) :=
  executeTask_action_exception_becomes_failed true [] "boom" 7 pendingTask (by decide)

/-- Payload of an inter-agent message.  The source carries a free-form
`content` dict per message; the embedding keeps the discriminating
`"type"` entry and the structured fields the safety interlock puts in it,
which are the only content fields the verified code inspects or produces. -/
inductive MessageContent where
  /-- An arbitrary content dict whose "type" entry (if any) is `tag`. -/
  | general (tag : String)
  /-- `alert` dict built in `AgentThemis._trigger_safety_alert`. -/
  | safetyViolation (agentId : String) (violations : List SafetyCheck)
      (vetoActivated : Bool)
  /-- Halt command dict built in `AgentThemis._exercise_veto_power`. -/
  | emergencyHalt (reason : String) (violations : List SafetyCheck)
  /-- Broadcast dict built in `AgentThemis._exercise_veto_power`. -/
  | vetoNotification (targetAgent : String) (reason : String)
  /-- Request dict built in `AgentThemis._audit_behavioral_alignment`. -/
  | behaviorAuditRequest (auditId : String)
  /-- Request dict built in `AgentThemis._audit_interpretability`. -/
  | interpretabilityAuditRequest
deriving DecidableEq, Repr

/-- Inter-agent message, from `Message` in `core/domain.py`.  Agent
identities are modelled by their string form, as the source keys
subscriber maps by `str(agent_id)`. -/
structure Message where
  senderId : String
  receiverId : String
  content : MessageContent
  messageType : String
deriving DecidableEq, Repr

/-- State of `InMemoryEventBus` from `infrastructure/event_bus.py`:
a subscriber map keyed by agent-id string (modelled as the list of
subscribed ids, since the registered callbacks are identified by their
agent) and one `asyncio.Queue` shared by all receivers.  The queue is
created with no `maxsize`, so it is unbounded and `put` always succeeds. -/
structure InMemoryEventBus where
  subscribers : List String
  queue : List Message
deriving DecidableEq, Repr

/-- `InMemoryEventBus.publish`: `await self._message_queue.put(message)` —
appends the message to the single shared FIFO queue.  The queue is
unbounded, so the operation is total: there is no capacity check and no
error path. -/
def InMemoryEventBus.publish (bus : InMemoryEventBus) (m : Message) : InMemoryEventBus :=
  { bus with queue := bus.queue ++ [m] }

/-- A sequence of `publish` calls, in order. -/
def InMemoryEventBus.publishAll (bus : InMemoryEventBus) (ms : List Message) :
    InMemoryEventBus :=
  ms.foldl InMemoryEventBus.publish bus

/-- `InMemoryEventBus.subscribe`: registers the callback under the agent id,
replacing any previous subscription for the same id. -/
def InMemoryEventBus.subscribe (bus : InMemoryEventBus) (agentId : String) :
    InMemoryEventBus :=
  if agentId ∈ bus.subscribers then bus
  else { bus with subscribers := bus.subscribers ++ [agentId] }

/-- `InMemoryEventBus.unsubscribe`: removes the subscription, if any. -/
def InMemoryEventBus.unsubscribe (bus : InMemoryEventBus) (agentId : String) :
    InMemoryEventBus :=
  { bus with subscribers := bus.subscribers.filter (fun a => a ≠ agentId) }

/-- `InMemoryEventBus._message_processor`, run to exhaustion of the queue:
the single processor coroutine repeatedly takes the head of the FIFO queue
and, when the receiver id is in the subscriber map, awaits the receiver's
callback on it before taking the next message.  The returned list is the
sequence of handler invocations, in invocation order; unsubscribed
receivers' messages are skipped. -/
def InMemoryEventBus.processQueue (subscribers : List String) :
    List Message → List Message
  | [] => []
  | m :: rest =>
      if m.receiverId ∈ subscribers then
        m :: InMemoryEventBus.processQueue subscribers rest
      else
        InMemoryEventBus.processQueue subscribers rest

/-- Publishing onto a bus only ever appends to the shared queue. -/
theorem InMemoryEventBus.publishAll_queue (bus : InMemoryEventBus) (ms : List Message) :
    (bus.publishAll ms).queue = bus.queue ++ ms := by
  induction ms generalizing bus with
  | nil => simp [InMemoryEventBus.publishAll]
  | cons m rest ih =>
      simp [InMemoryEventBus.publishAll, InMemoryEventBus.publish] at ih ⊢
      rw [ih]
      simp

/-- `publishAll` does not change the subscriber map. -/
theorem InMemoryEventBus.publishAll_subscribers (bus : InMemoryEventBus)
    (ms : List Message) : (bus.publishAll ms).subscribers = bus.subscribers := by
  induction ms generalizing bus with
  | nil => rfl
  | cons m rest ih =>
      simp [InMemoryEventBus.publishAll, InMemoryEventBus.publish] at ih ⊢
      exact ih _

/-- Processing distributes over queue concatenation. -/
theorem InMemoryEventBus.processQueue_append (subscribers : List String)
    (l1 l2 : List Message) :
    InMemoryEventBus.processQueue subscribers (l1 ++ l2) =
      InMemoryEventBus.processQueue subscribers l1 ++
        InMemoryEventBus.processQueue subscribers l2 := by
  induction l1 with
  | nil => simp [InMemoryEventBus.processQueue]
  | cons m rest ih =>
      by_cases h : m.receiverId ∈ subscribers <;>
        simp [InMemoryEventBus.processQueue, h, ih]

/-- C6: FIFO delivery.  If `m1` is published before `m2` (any publish
prefix `a`, interleaved messages `b`, suffix `c`) and both messages'
receivers are subscribed, then the processor's handler-invocation sequence
contains `m1` strictly before `m2`.  This holds in particular when `m1` and
`m2` have the same sender and the same receiver: the in-memory bus keeps a
single global FIFO queue and one sequential processor, so publish order is
preserved per sender-receiver pair (indeed globally). -/
theorem bus_fifo_delivery_order (subscribers : List String) (a b c : List Message)
    (m1 m2 : Message)
    (h1 : m1.receiverId ∈ subscribers) (h2 : m2.receiverId ∈ subscribers) :
    InMemoryEventBus.processQueue subscribers
        ((InMemoryEventBus.publishAll ⟨subscribers, []⟩ (a ++ m1 :: b ++ m2 :: c)).queue) =
      InMemoryEventBus.processQueue subscribers a ++
        m1 :: (InMemoryEventBus.processQueue subscribers b ++
          m2 :: InMemoryEventBus.processQueue subscribers c) := by
  rw [InMemoryEventBus.publishAll_queue]
  simp only [List.nil_append]
  rw [InMemoryEventBus.processQueue_append]
  simp [InMemoryEventBus.processQueue, h1, h2, InMemoryEventBus.processQueue_append]

/-- A sample message between two fixed agents. -/
def sampleMessage : Message :=
  { senderId := "agent-s", receiverId := "agent-r",
    content := .general "status_report", messageType := "general" }

/-- A second sample message on the same sender-receiver pair. -/
def sampleMessage2 : Message :=
  { senderId := "agent-s", receiverId := "agent-r",
    content := .general "status_report_2", messageType := "general" }

/-- Witness for C6's theorem at a concrete input: two messages from
`agent-s` to `agent-r` published in order are handled in that order. -/
theorem bus_fifo_delivery_order_witness :
    InMemoryEventBus.processQueue ["agent-r"]
        ((InMemoryEventBus.publishAll ⟨["agent-r"], []⟩
          ([] ++ sampleMessage :: [] ++ sampleMessage2 :: [])).queue) =
      InMemoryEventBus.processQueue ["agent-r"] [] ++
        sampleMessage :: (InMemoryEventBus.processQueue ["agent-r"] [] ++
          sampleMessage2 :: InMemoryEventBus.processQueue ["agent-r"] []) :=
  bus_fifo_delivery_order ["agent-r"] [] [] [] sampleMessage sampleMessage2
    (by decide) (by decide)

/-- C7 counterexample: the bus queue is a single shared unbounded queue, not
a bounded per-receiver one.  After 1000 publishes to the same receiver, the
next publish still succeeds and simply enqueues the message (1001 held
messages); no publish ever fails with a capacity error, since `publish` is
a total function with no error outcome. -/
theorem publish_has_no_capacity_limit :
    ((InMemoryEventBus.publishAll ⟨["agent-r"], []⟩
        (List.replicate 1000 sampleMessage)).queue.length = 1000)
    ∧ ((InMemoryEventBus.publish
          (InMemoryEventBus.publishAll ⟨["agent-r"], []⟩
            (List.replicate 1000 sampleMessage)) sampleMessage).queue.length = 1001) := by
  constructor
  · rw [InMemoryEventBus.publishAll_queue, List.nil_append, List.length_replicate]
  · simp only [InMemoryEventBus.publish, List.length_append,
      InMemoryEventBus.publishAll_queue, List.nil_append, List.length_replicate,
      List.length_singleton]

/-- C7 amended: the in-memory bus holds all published messages in one
shared unbounded FIFO queue; `publish` always succeeds by appending the
message to that queue (leaving the subscriber map untouched) and never
signals a capacity error, blocks, or drops the message. -/
theorem publish_always_appends (bus : InMemoryEventBus) (m : Message) :
    (bus.publish m).queue = bus.queue ++ [m]
    ∧ (bus.publish m).subscribers = bus.subscribers := by
  constructor <;> rfl

/-- Lookup in a Python dict keyed by strings, modelled as first-match
lookup in an association list. -/
def dictLookup {α : Type} : List (String × α) → String → Option α
  | [], _ => none
  | (k, v) :: rest, key => if k = key then some v else dictLookup rest key

/-- Python dict assignment `d[key] = v`: overwrites the entry in place when
the key is present, appends a new entry otherwise. -/
def dictSet {α : Type} : List (String × α) → String → α → List (String × α)
  | [], key, v => [(key, v)]
  | (k, w) :: rest, key, v =>
      if k = key then (k, v) :: rest else (k, w) :: dictSet rest key v

/-- Python dict deletion `del d[key]`: drops the entry with that key. -/
def dictDelete {α : Type} (l : List (String × α)) (key : String) :
    List (String × α) :=
  l.filter (fun p => p.1 ≠ key)

theorem dictLookup_dictSet_self {α : Type} (l : List (String × α)) (key : String)
    (v : α) : dictLookup (dictSet l key v) key = some v := by
  induction l with
  | nil => simp [dictSet, dictLookup]
  | cons p rest ih =>
      by_cases h : p.1 = key <;> simp [dictSet, dictLookup, h, ih]

theorem dictLookup_dictDelete_self {α : Type} (l : List (String × α))
    (key : String) : dictLookup (dictDelete l key) key = none := by
  induction l with
  | nil => rfl
  | cons p rest ih =>
      by_cases h : p.1 = key <;> simp [dictDelete, dictLookup, h] at ih ⊢ <;>
        simpa [dictDelete] using ih

/-- State of `InMemoryRepository` from `infrastructure/repositories.py`:
a dict from `str(entity.id)` to the stored entity. -/
structure InMemoryRepository (α : Type) where
  storage : List (String × α)
deriving DecidableEq, Repr

/-- `InMemoryRepository.save`: when the entity has an `id` attribute
(modelled by `idOf e = some key`, the key being `str(entity.id)`), stores
the entity under that key, overwriting any previous entry; otherwise
raises `ValueError` and stores nothing.  `idOf` models the `hasattr`
access to the entity's id, which depends on the stored entity type. -/
def InMemoryRepository.save {α : Type} (idOf : α → Option String)
    (repo : InMemoryRepository α) (e : α) : Except String (InMemoryRepository α) :=
  match idOf e with
  | some key => .ok ⟨dictSet repo.storage key e⟩
  | none => .error "Entity must have an id attribute"

/-- `InMemoryRepository.get_by_id`: dict lookup by `str(entity_id)`. -/
def InMemoryRepository.getById {α : Type} (repo : InMemoryRepository α)
    (key : String) : Option α :=
  dictLookup repo.storage key

/-- `InMemoryRepository.delete`: deletes the entry when the key is present
and reports whether it was. -/
def InMemoryRepository.deleteById {α : Type} (repo : InMemoryRepository α)
    (key : String) : Bool × InMemoryRepository α :=
  if (dictLookup repo.storage key).isSome then
    (true, ⟨dictDelete repo.storage key⟩)
  else
    (false, repo)

/-- C10: the in-memory repository behaves as a mutable map keyed by entity
id: saving an entity with an id makes it retrievable under that id (and a
later save under the same id overwrites the earlier entity); delete
returns true exactly when the id is currently stored, after which the id
resolves to nothing, and returns false leaving the repository unchanged
otherwise; saving an entity without an id raises an error and produces no
new repository state. -/
theorem inMemoryRepository_map_semantics {α : Type} (idOf : α → Option String)
    (repo : InMemoryRepository α) (e e2 : α) (key : String)
    (hid : idOf e = some key) (hid2 : idOf e2 = some key) :
    (∃ repo2, InMemoryRepository.save idOf repo e = .ok repo2
        ∧ repo2.getById key = some e
        ∧ ∃ repo3, InMemoryRepository.save idOf repo2 e2 = .ok repo3
            ∧ repo3.getById key = some e2)
    ∧ ((repo.getById key).isSome = true →
        (repo.deleteById key).1 = true
          ∧ (repo.deleteById key).2.getById key = none)
    ∧ ((repo.getById key).isSome = false → repo.deleteById key = (false, repo))
    ∧ (∀ e3, idOf e3 = none →
        InMemoryRepository.save idOf repo e3 = .error "Entity must have an id attribute") := by
  refine ⟨⟨⟨dictSet repo.storage key e⟩, ?_, ?_, ⟨dictSet (dictSet repo.storage key e) key e2⟩, ?_, ?_⟩, ?_, ?_, ?_⟩
  · simp [InMemoryRepository.save, hid]
  · simp [InMemoryRepository.getById, dictLookup_dictSet_self]
  · simp [InMemoryRepository.save, hid2]
  · simp [InMemoryRepository.getById, dictLookup_dictSet_self]
  · intro h
    simp [InMemoryRepository.deleteById, InMemoryRepository.getById] at h ⊢
    simp [h, dictLookup_dictDelete_self]
  · intro h
    simp [InMemoryRepository.deleteById, InMemoryRepository.getById] at h ⊢
    simp [h]
  · intro e3 h3
    simp [InMemoryRepository.save, h3]

/-- A generic stored entity: an optional id (absent models a Python object
without an `id` attribute) and an opaque payload. -/
structure Entity where
  id : Option String
  payload : String
deriving DecidableEq, Repr

/-- The id attribute of a generic entity, as its string form. -/
def Entity.idOf (e : Entity) : Option String := e.id

/-- Witness for C10's theorem at a concrete input. -/
theorem inMemoryRepository_map_semantics_witness :
    (∃ repo2, InMemoryRepository.save Entity.idOf ⟨[]⟩ ⟨some "e1", "v1"⟩ = .ok repo2
        ∧ repo2.getById "e1" = some ⟨some "e1", "v1"⟩
        ∧ ∃ repo3, InMemoryRepository.save Entity.idOf repo2 ⟨some "e1", "v2"⟩ = .ok repo3
            ∧ repo3.getById "e1" = some ⟨some "e1", "v2"⟩)
    ∧ (((⟨[]⟩ : InMemoryRepository Entity).getById "e1").isSome = true →
        ((⟨[]⟩ : InMemoryRepository Entity).deleteById "e1").1 = true
          ∧ ((⟨[]⟩ : InMemoryRepository Entity).deleteById "e1").2.getById "e1" = none)
    ∧ (((⟨[]⟩ : InMemoryRepository Entity).getById "e1").isSome = false →
        (⟨[]⟩ : InMemoryRepository Entity).deleteById "e1" = (false, ⟨[]⟩))
    ∧ (∀ e3, Entity.idOf e3 = none →
        InMemoryRepository.save Entity.idOf (⟨[]⟩ : InMemoryRepository Entity) e3
          = .error "Entity must have an id attribute") :=
  inMemoryRepository_map_semantics Entity.idOf ⟨[]⟩ ⟨some "e1", "v1"⟩ ⟨some "e1", "v2"⟩
    "e1" (by decide) (by decide)

/-- The id attribute of a task, as used for the repository key
`str(task.id)`; every task has an id. -/
def Task.idOf (t : Task) : Option String := some t.id

/-- `TaskService.cancel_task` from `services/task_service.py` (lines
166-187), acting on the task repository state: looks the task up by id;
returns false when absent; returns false without mutating anything when
the status is not `pending` or `in_progress`; otherwise sets the status to
`cancelled` (`updated_at` is reassigned to itself in the source, a no-op),
saves the task, and returns true. -/
def TaskService.cancelTask (repo : InMemoryRepository Task) (taskId : String) :
    Bool × InMemoryRepository Task :=
  match repo.getById taskId with
  | none => (false, repo)
  | some task =>
      if task.status ∉ [TaskStatus.pending, TaskStatus.inProgress] then
        (false, repo)
      else
        match InMemoryRepository.save Task.idOf repo { task with status := .cancelled } with
        | .ok repo2 => (true, repo2)
        | .error _ => (false, repo)

/-- C8: cancelling a task in a terminal state (`completed`, `failed`, or
already `cancelled`) returns false and leaves the repository — hence the
task's stored state — unchanged; cancelling a task in `pending` or
`in_progress` returns true and stores the task with status `cancelled`. -/
theorem cancelTask_terminal_guard (repo : InMemoryRepository Task)
    (taskId : String) (t : Task) (hget : repo.getById taskId = some t) :
    (t.status = .completed ∨ t.status = .failed ∨ t.status = .cancelled →
        TaskService.cancelTask repo taskId = (false, repo))
    ∧ (t.status = .pending ∨ t.status = .inProgress →
        (TaskService.cancelTask repo taskId).1 = true
          ∧ (TaskService.cancelTask repo taskId).2.getById t.id
              = some { t with status := .cancelled }) := by
  constructor
  · intro hterm
    rcases hterm with h | h | h <;>
      simp [TaskService.cancelTask, hget, h]
  · intro hlive
    have hget2 : dictLookup repo.storage taskId = some t := hget
    have hsave : InMemoryRepository.save Task.idOf repo { t with status := .cancelled }
        = .ok ⟨dictSet repo.storage t.id { t with status := .cancelled }⟩ := by
      simp [InMemoryRepository.save, Task.idOf]
    rcases hlive with h | h <;>
      simp [TaskService.cancelTask, hget2, h, hsave, InMemoryRepository.getById,
        dictLookup_dictSet_self]

/-- Witness for C8's theorem at a concrete input: an in-progress task is
cancelled (returns true, stored as cancelled), via the theorem applied to
a one-task repository. -/
theorem cancelTask_terminal_guard_witness :
    (TaskService.cancelTask ⟨[("t2", pendingTask)]⟩ "t2").1 = true
    ∧ (TaskService.cancelTask ⟨[("t2", pendingTask)]⟩ "t2").2.getById pendingTask.id
        = some { pendingTask with status := .cancelled } :=
  (cancelTask_terminal_guard ⟨[("t2", pendingTask)]⟩ "t2" pendingTask (by decide)).2
    (Or.inl (by decide))

/-- The hierarchy-relevant state of a `BaseAgent` held by the manager:
its subordinate list, supervisor pointer, and activation flag (from
`core/base_agent.py`).  `add_subordinate` refuses duplicates, so reachable
states have duplicate-free subordinate lists. -/
structure AgentNode where
  subordinates : List String
  supervisor : Option String
  isActive : Bool
deriving DecidableEq, Repr

/-- State of `AgentManager` from `services/agent_manager.py`: the managed
agents keyed by `str(agent.id)`, and the `_agent_hierarchy` cache mapping
agent id to cached subordinate ids. -/
structure AgentManagerState where
  agents : List (String × AgentNode)
  agentHierarchy : List (String × List String)
deriving DecidableEq, Repr

/-- `AgentManager._remove_from_hierarchy` (lines 393-402): for every
remaining agent, if the removed id is among its subordinates, call
`remove_subordinate`, which removes the first occurrence (`List.erase`
also matches the source's no-op when absent); then drop the removed id
from the hierarchy cache.  Supervisor pointers are not touched. -/
def AgentManager.removeFromHierarchy (st : AgentManagerState) (agentId : String) :
    AgentManagerState :=
  { agents := st.agents.map
      (fun p => (p.1, { p.2 with subordinates := p.2.subordinates.erase agentId })),
    agentHierarchy := dictDelete st.agentHierarchy agentId }

/-- `AgentManager.remove_agent` (lines 130-143): returns false when the id
is not managed; otherwise stops the agent (which only flips its activation
flag and bus subscription — the record is deleted from the registry right
after, so the registry state is unaffected), deletes it from the agents
dict, and runs `_remove_from_hierarchy` over the remaining agents. -/
def AgentManager.removeAgent (st : AgentManagerState) (agentId : String) :
    Bool × AgentManagerState :=
  match dictLookup st.agents agentId with
  | none => (false, st)
  | some _ =>
      (true, AgentManager.removeFromHierarchy
        { st with agents := dictDelete st.agents agentId } agentId)

/-- A two-agent registry: supervisor `P` with subordinate `B`, `B`
pointing back at `P` as its supervisor. -/
def registryPB : AgentManagerState :=
  { agents :=
      [("P", { subordinates := ["B"], supervisor := none, isActive := true }),
       ("B", { subordinates := [], supervisor := some "P", isActive := true })],
    agentHierarchy := [("P", ["B"]), ("B", [])] }

/-- C9 counterexample: removing agent `P` from the registry deletes it and
severs subordinate lists, but does not clear the supervisor pointer of the
remaining agent `B` that pointed at it: `B.supervisor` still names the
removed agent `P`, so the post-removal hierarchy retains a (dangling)
reference to the removed agent, contrary to the claim. -/
theorem removeAgent_leaves_dangling_supervisor :
    (AgentManager.removeAgent registryPB "P").1 = true
    ∧ dictLookup (AgentManager.removeAgent registryPB "P").2.agents "P" = none
    ∧ (dictLookup (AgentManager.removeAgent registryPB "P").2.agents "B").map
        (fun n => n.supervisor) = some (some "P") := by
  decide

/-- C9 amended: removing a managed agent returns true, deletes it from the
registry and the hierarchy cache, and removes its id from every remaining
agent's subordinate list (exactly: every remaining agent keeps its state
except that the removed id is erased from its subordinates — in
particular, supervisor pointers are left unchanged, and with duplicate-free
subordinate lists, as maintained by `add_subordinate`, no remaining
subordinate list mentions the removed agent). -/
theorem removeAgent_severs_subordinate_lists (st : AgentManagerState)
    (agentId : String)
    (hmem : (dictLookup st.agents agentId).isSome = true)
    (hnodup : ∀ p ∈ st.agents, p.2.subordinates.Nodup) :
    (AgentManager.removeAgent st agentId).1 = true
    ∧ (AgentManager.removeAgent st agentId).2.agents =
        (dictDelete st.agents agentId).map
          (fun p => (p.1, { p.2 with subordinates := p.2.subordinates.erase agentId }))
    ∧ (AgentManager.removeAgent st agentId).2.agentHierarchy
        = dictDelete st.agentHierarchy agentId
    ∧ ∀ p ∈ (AgentManager.removeAgent st agentId).2.agents,
        agentId ∉ p.2.subordinates := by
  obtain ⟨node, hnode⟩ := Option.isSome_iff_exists.mp hmem
  refine ⟨?_, ?_, ?_, ?_⟩
  · simp [AgentManager.removeAgent, hnode]
  · simp [AgentManager.removeAgent, hnode, AgentManager.removeFromHierarchy]
  · simp [AgentManager.removeAgent, hnode, AgentManager.removeFromHierarchy]
  · intro p hp
    simp only [AgentManager.removeAgent, hnode, AgentManager.removeFromHierarchy,
      List.mem_map] at hp
    obtain ⟨q, hq, hfq⟩ := hp
    have hqorig : q ∈ st.agents := List.mem_of_mem_filter hq
    have hnd : q.2.subordinates.Nodup := hnodup q hqorig
    have : p.2.subordinates = q.2.subordinates.erase agentId := by
      rw [← hfq]
    rw [this]
    exact hnd.not_mem_erase

/-- Witness for C9's amended theorem at the concrete two-agent registry. -/
theorem removeAgent_severs_subordinate_lists_witness :
    (AgentManager.removeAgent registryPB "P").1 = true
    ∧ (AgentManager.removeAgent registryPB "P").2.agents =
        (dictDelete registryPB.agents "P").map
          (fun p => (p.1, { p.2 with subordinates := p.2.subordinates.erase "P" }))
    ∧ (AgentManager.removeAgent registryPB "P").2.agentHierarchy
        = dictDelete registryPB.agentHierarchy "P"
    ∧ ∀ p ∈ (AgentManager.removeAgent registryPB "P").2.agents,
        "P" ∉ p.2.subordinates :=
  removeAgent_severs_subordinate_lists registryPB "P" (by decide) (by decide)

/-- Alert threshold "low" from `AgentThemis.__init__` (`0.3`). -/
def alertThresholdLow : ℚ := mkRat 3 10

/-- Alert threshold "medium" from `AgentThemis.__init__` (`0.6`). -/
def alertThresholdMedium : ℚ := mkRat 6 10

/-- Alert threshold "high" from `AgentThemis.__init__` (`0.8`). -/
def alertThresholdHigh : ℚ := mkRat 8 10

/-- Alert threshold "critical" from `AgentThemis.__init__` (`0.9`). -/
def alertThresholdCritical : ℚ := mkRat 9 10

/-- The safety-interlock-relevant state of `AgentThemis`: its identity and
hierarchy links from `BaseAgent`, the `_veto_power_active` flag
(initialised to `True`), and the `_audit_history` list. -/
structure ThemisState where
  selfId : String
  supervisor : Option String
  subordinates : List String
  vetoPowerActive : Bool
  auditHistory : List SafetyCheck
deriving DecidableEq, Repr

/-- The scores produced by the (placeholder) analysis helpers that the
five audit checks compare against the thresholds:
`_calculate_alignment_score`, `_detect_gaming_patterns`,
`_calculate_goal_drift`, `_calculate_interpretability_score`,
`_assess_containment`.  The source stubs them with constants and marks
them as the seam where real behavior analysis would attach, so the
embedding passes their outputs in as parameters. -/
structure AuditScores where
  alignmentScore : ℚ
  gamingIndicators : List String
  goalDriftScore : ℚ
  interpretabilityScore : ℚ
  containmentScore : ℚ
deriving DecidableEq, Repr

/-- The behavior-report request that `_audit_behavioral_alignment` sends to
the audited agent before scoring it. -/
def AgentThemis.behaviorAuditRequestMessage (selfId targetId : String) : Message :=
  { senderId := selfId, receiverId := targetId,
    content := .behaviorAuditRequest targetId, messageType := "safety_audit" }

/-- The internal-state request that `_audit_interpretability` sends to the
audited agent before scoring it. -/
def AgentThemis.interpretabilityAuditRequestMessage (selfId targetId : String) : Message :=
  { senderId := selfId, receiverId := targetId,
    content := .interpretabilityAuditRequest, messageType := "safety_audit" }

/-- `AgentThemis._audit_behavioral_alignment` (lines 145-184), scoring
part.  The status/severity cascade of the source is kept exactly: note
that the last step (`alignment_score < critical threshold`) overwrites
only the severity, so a score in `[0.8, 0.9)` yields status "passed" with
severity "critical". -/
def AgentThemis.auditBehavioralAlignment (alignmentScore : ℚ) : SafetyCheck :=
  let s1 : String × String := ("passed", "low")
  let s2 := if alignmentScore < alertThresholdMedium then ("warning", "medium") else s1
  let s3 := if alignmentScore < alertThresholdHigh then ("failed", "high") else s2
  let severity := if alignmentScore < alertThresholdCritical then "critical" else s3.2
  { checkType := "behavioral_alignment", status := s3.1,
    message := "Behavioral alignment score"
      ++ (if alignmentScore < alertThresholdMedium then
            " - Below recommended alignment threshold" else "")
      ++ (if alignmentScore < alertThresholdHigh then
            " - Significant alignment concerns detected" else "")
      ++ (if alignmentScore < alertThresholdCritical then
            " - CRITICAL: Severe misalignment detected" else ""),
    severity := severity }

/-- `AgentThemis._audit_specification_gaming` (lines 186-217). -/
def AgentThemis.auditSpecificationGaming (gamingIndicators : List String) : SafetyCheck :=
  let s1 : String × String := ("passed", "low")
  let s2 := if gamingIndicators.length > 2 then ("warning", "medium") else s1
  let s3 := if gamingIndicators.length > 4 then ("failed", "high") else s2
  { checkType := "specification_gaming", status := s3.1,
    message := "Specification gaming analysis complete"
      ++ (if gamingIndicators.length > 2 then
            " - Multiple gaming indicators detected" else "")
      ++ (if gamingIndicators.length > 4 then
            " - Significant gaming behavior patterns" else ""),
    severity := s3.2 }

/-- `AgentThemis._audit_goal_alignment` (lines 219-247). -/
def AgentThemis.auditGoalAlignment (goalDriftScore : ℚ) : SafetyCheck :=
  let s1 : String × String := ("passed", "low")
  let s2 := if goalDriftScore > alertThresholdMedium then ("warning", "medium") else s1
  let s3 := if goalDriftScore > alertThresholdHigh then ("failed", "high") else s2
  { checkType := "goal_alignment", status := s3.1,
    message := "Goal alignment check complete"
      ++ (if goalDriftScore > alertThresholdMedium then " - Goal drift detected" else "")
      ++ (if goalDriftScore > alertThresholdHigh then
            " - Significant goal misgeneralization" else ""),
    severity := s3.2 }

/-- `AgentThemis._audit_interpretability` (lines 249-283), scoring part. -/
def AgentThemis.auditInterpretability (interpretabilityScore : ℚ) : SafetyCheck :=
  let s1 : String × String := ("passed", "low")
  let s2 := if interpretabilityScore < alertThresholdMedium then ("warning", "medium") else s1
  let s3 := if interpretabilityScore < alertThresholdHigh then ("failed", "high") else s2
  { checkType := "interpretability", status := s3.1,
    message := "Interpretability score"
      ++ (if interpretabilityScore < alertThresholdMedium then
            " - Limited interpretability" else "")
      ++ (if interpretabilityScore < alertThresholdHigh then
            " - Poor interpretability - black box behavior" else ""),
    severity := s3.2 }

/-- `AgentThemis._audit_containment` (lines 285-307). -/
def AgentThemis.auditContainment (containmentScore : ℚ) : SafetyCheck :=
  let failing := containmentScore < alertThresholdHigh
  { checkType := "containment",
    status := if failing then "failed" else "passed",
    message := "Containment assessment complete"
      ++ (if failing then " - CONTAINMENT BREACH RISK" else ""),
    severity := if failing then "critical" else "low" }

/-- `AgentThemis._exercise_veto_power` (lines 336-355): sends one immediate
halt command to the target agent (message type "emergency_command"), then
a veto notification to every direct subordinate (message type
"safety_alert"), in that order. -/
def AgentThemis.exerciseVetoPower (st : ThemisState) (agentId : String)
    (violations : List SafetyCheck) : List Message :=
  { senderId := st.selfId, receiverId := agentId,
    content := .emergencyHalt "Safety veto activated" violations,
    messageType := "emergency_command" } ::
  st.subordinates.map (fun sub =>
    { senderId := st.selfId, receiverId := sub,
      content := .vetoNotification agentId "Critical safety violations detected",
      messageType := "safety_alert" })

/-- `AgentThemis._trigger_safety_alert` (lines 309-334): sends the alert
(carrying the violation set and the veto flag) to the supervisor when one
is set, then — when the violation batch has a critical-severity entry and
veto power is active — exercises veto power against the target agent. -/
def AgentThemis.triggerSafetyAlert (st : ThemisState) (violations : List SafetyCheck)
    (agentId : String) : List Message :=
  let supervisorMsgs : List Message :=
    match st.supervisor with
    | some sup =>
        [{ senderId := st.selfId, receiverId := sup,
           content := .safetyViolation agentId violations st.vetoPowerActive,
           messageType := "safety_alert" }]
    | none => []
  let criticalViolations := violations.filter (fun v => v.severity == "critical")
  supervisorMsgs ++
    (if !criticalViolations.isEmpty && st.vetoPowerActive then
      AgentThemis.exerciseVetoPower st agentId criticalViolations
    else [])

/-- Result of `perform_comprehensive_audit`: the returned check list, the
messages sent during the audit (in send order), and the updated Themis
state (extended audit history). -/
structure AuditOutcome where
  checks : List SafetyCheck
  messages : List Message
  state : ThemisState
deriving DecidableEq, Repr

/-- `AgentThemis.perform_comprehensive_audit` (lines 104-143): runs the
five checks in order (the behavioral and interpretability checks each
first send a request message to the target), appends the results to the
audit history, filters the batch for severity-"critical" entries, and
triggers the safety alert when any are present.  Note the filter is on
severity, not on status. -/
def AgentThemis.performComprehensiveAudit (st : ThemisState) (targetAgentId : String)
    (scores : AuditScores) : AuditOutcome :=
  let auditResults :=
    [AgentThemis.auditBehavioralAlignment scores.alignmentScore,
     AgentThemis.auditSpecificationGaming scores.gamingIndicators,
     AgentThemis.auditGoalAlignment scores.goalDriftScore,
     AgentThemis.auditInterpretability scores.interpretabilityScore,
     AgentThemis.auditContainment scores.containmentScore]
  let st1 := { st with auditHistory := st.auditHistory ++ auditResults }
  let criticalFailures := auditResults.filter (fun c => c.severity == "critical")
  { checks := auditResults,
    messages :=
      AgentThemis.behaviorAuditRequestMessage st.selfId targetAgentId ::
      AgentThemis.interpretabilityAuditRequestMessage st.selfId targetAgentId ::
      (if criticalFailures.isEmpty then []
       else AgentThemis.triggerSafetyAlert st1 criticalFailures targetAgentId),
    state := st1 }

/-- A Themis instance wired into the standard hierarchy, with veto power
active as initialised by the source. -/
def themisWired : ThemisState :=
  { selfId := "themis", supervisor := some "prometheus-master",
    subordinates := ["daedalus"], vetoPowerActive := true, auditHistory := [] }

/-- Scores for which every check's status is "passed" but the behavioral
check's severity is "critical": the alignment score `0.85` is exactly the
value the source's placeholder `_calculate_alignment_score` returns. -/
def passedButCriticalScores : AuditScores :=
  { alignmentScore := mkRat 17 20,
    gamingIndicators := [],
    goalDriftScore := mkRat 3 20,
    interpretabilityScore := mkRat 19 20,
    containmentScore := mkRat 19 20 }

/-- C3 counterexample: an audit in which all five checks return status
"passed" (behavioral alignment score 0.85 — the source's own placeholder
value — lies in `[0.8, 0.9)`, so its status stays "passed" while its
severity is escalated to "critical"), yet the audit triggers the safety
alert: an emergency-halt directive and safety-alert broadcasts are sent,
because the alert filter keys on severity rather than status. -/
theorem audit_all_passed_can_still_alert :
    ((AgentThemis.performComprehensiveAudit themisWired "odysseus"
        passedButCriticalScores).checks.all (fun c => c.status == "passed")) = true
    ∧ (AgentThemis.performComprehensiveAudit themisWired "odysseus"
        passedButCriticalScores).checks.length = 5
    ∧ ((AgentThemis.performComprehensiveAudit themisWired "odysseus"
        passedButCriticalScores).messages.any
          (fun m => m.messageType == "emergency_command")) = true
    ∧ ((AgentThemis.performComprehensiveAudit themisWired "odysseus"
        passedButCriticalScores).messages.any
          (fun m => m.messageType == "safety_alert")) = true := by
  decide

/-- C3 amended: for every audit in which all five checks return status
"passed" and no check has severity "critical", the audit returns exactly 5
check results and the only messages sent are the two "safety_audit"
request messages to the audited agent: no safety alert, no halt directive,
and no broadcast is sent, so the audited agent is left untouched
(remains active). -/
theorem audit_passed_noncritical_sends_no_alert (st : ThemisState)
    (targetId : String) (scores : AuditScores)
    (_hpassed : ((AgentThemis.performComprehensiveAudit st targetId scores).checks.all
        (fun c => c.status == "passed")) = true)
    (hnocrit : ((AgentThemis.performComprehensiveAudit st targetId scores).checks.all
        (fun c => c.severity != "critical")) = true) :
    (AgentThemis.performComprehensiveAudit st targetId scores).checks.length = 5
    ∧ (AgentThemis.performComprehensiveAudit st targetId scores).messages =
        [AgentThemis.behaviorAuditRequestMessage st.selfId targetId,
         AgentThemis.interpretabilityAuditRequestMessage st.selfId targetId]
    ∧ ((AgentThemis.performComprehensiveAudit st targetId scores).messages.all
        (fun m => m.messageType == "safety_audit")) = true := by
  have hfilter : ((AgentThemis.performComprehensiveAudit st targetId scores).checks.filter
      (fun c => c.severity == "critical")) = [] := by
    rw [List.filter_eq_nil_iff]
    intro c hc
    have h2 := List.all_eq_true.mp hnocrit c hc
    simpa using h2
  refine ⟨?_, ?_, ?_⟩
  · simp [AgentThemis.performComprehensiveAudit]
  · simp only [AgentThemis.performComprehensiveAudit] at hfilter ⊢
    simp [hfilter]
  · simp only [AgentThemis.performComprehensiveAudit] at hfilter ⊢
    simp [hfilter, AgentThemis.behaviorAuditRequestMessage,
      AgentThemis.interpretabilityAuditRequestMessage]

/-- Scores for which every check passes with low severity. -/
def cleanScores : AuditScores :=
  { alignmentScore := mkRat 19 20,
    gamingIndicators := [],
    goalDriftScore := mkRat 3 20,
    interpretabilityScore := mkRat 19 20,
    containmentScore := mkRat 19 20 }

/-- Witness for C3's amended theorem at a concrete clean audit. -/
theorem audit_passed_noncritical_sends_no_alert_witness :
    (AgentThemis.performComprehensiveAudit themisWired "odysseus" cleanScores).checks.length = 5
    ∧ (AgentThemis.performComprehensiveAudit themisWired "odysseus" cleanScores).messages =
        [AgentThemis.behaviorAuditRequestMessage themisWired.selfId "odysseus",
         AgentThemis.interpretabilityAuditRequestMessage themisWired.selfId "odysseus"]
    ∧ ((AgentThemis.performComprehensiveAudit themisWired "odysseus" cleanScores).messages.all
        (fun m => m.messageType == "safety_audit")) = true :=
  audit_passed_noncritical_sends_no_alert themisWired "odysseus" cleanScores
    (by decide) (by decide)

/-- C4: for a violation batch containing at least one critical-severity
check: with veto power enabled (and a supervisor configured), the
interlock's alert sequence is exactly one "safety_alert" report to the
supervisor carrying the violation set, then exactly one emergency-halt
directive ("emergency_command") to the audited agent, then one
"safety_alert" veto broadcast to each direct subordinate; with veto power
disabled, no halt directive is sent at all. -/
theorem critical_batch_veto_halts_exactly_once (st : ThemisState)
    (violations : List SafetyCheck) (targetId sup : String)
    (hcrit : violations.any (fun v => v.severity == "critical") = true)
    (hsup : st.supervisor = some sup) :
    (st.vetoPowerActive = true →
        AgentThemis.triggerSafetyAlert st violations targetId =
          { senderId := st.selfId, receiverId := sup,
            content := .safetyViolation targetId violations true,
            messageType := "safety_alert" } ::
          { senderId := st.selfId, receiverId := targetId,
            content := .emergencyHalt "Safety veto activated"
              (violations.filter (fun v => v.severity == "critical")),
            messageType := "emergency_command" } ::
          st.subordinates.map (fun sub =>
            { senderId := st.selfId, receiverId := sub,
              content := .vetoNotification targetId "Critical safety violations detected",
              messageType := "safety_alert" })
        ∧ ((AgentThemis.triggerSafetyAlert st violations targetId).countP
            (fun m => m.messageType == "emergency_command")) = 1)
    ∧ (st.vetoPowerActive = false →
        ((AgentThemis.triggerSafetyAlert st violations targetId).all
          (fun m => m.messageType != "emergency_command")) = true) := by
  have hne : (violations.filter (fun v => v.severity == "critical")).isEmpty = false := by
    obtain ⟨v, hv, hvs⟩ := List.any_eq_true.mp hcrit
    rw [List.isEmpty_eq_false]
    intro hnil
    exact (List.filter_eq_nil_iff.mp hnil v hv) (by simpa using hvs)
  constructor
  · intro hveto
    constructor
    · simp [AgentThemis.triggerSafetyAlert, hsup, hne, hveto,
        AgentThemis.exerciseVetoPower]
    · have hzero : (st.subordinates.map (fun sub =>
          ({ senderId := st.selfId, receiverId := sub,
             content := .vetoNotification targetId "Critical safety violations detected",
             messageType := "safety_alert" } : Message))).countP
            (fun m => m.messageType == "emergency_command") = 0 := by
        rw [List.countP_eq_zero]
        intro m hm
        obtain ⟨sub, _, hsub⟩ := List.mem_map.mp hm
        subst hsub
        simp
      simp [AgentThemis.triggerSafetyAlert, hsup, hne, hveto,
        AgentThemis.exerciseVetoPower, List.countP_cons, List.countP_append, hzero]
  · intro hveto
    simp [AgentThemis.triggerSafetyAlert, hsup, hveto]

/-- A critical-severity containment violation. -/
def criticalViolation : SafetyCheck :=
  { checkType := "containment", status := "failed",
    message := "Containment assessment complete - CONTAINMENT BREACH RISK",
    severity := "critical" }

/-- Witness for C4's theorem at a concrete critical batch with veto
enabled. -/
theorem critical_batch_veto_halts_exactly_once_witness :
    (themisWired.vetoPowerActive = true →
        AgentThemis.triggerSafetyAlert themisWired [criticalViolation] "odysseus" =
          { senderId := themisWired.selfId, receiverId := "prometheus-master",
            content := .safetyViolation "odysseus" [criticalViolation] true,
            messageType := "safety_alert" } ::
          { senderId := themisWired.selfId, receiverId := "odysseus",
            content := .emergencyHalt "Safety veto activated"
              ([criticalViolation].filter (fun v => v.severity == "critical")),
            messageType := "emergency_command" } ::
          themisWired.subordinates.map (fun sub =>
            { senderId := themisWired.selfId, receiverId := sub,
              content := .vetoNotification "odysseus" "Critical safety violations detected",
              messageType := "safety_alert" })
        ∧ ((AgentThemis.triggerSafetyAlert themisWired [criticalViolation] "odysseus").countP
            (fun m => m.messageType == "emergency_command")) = 1)
    ∧ (themisWired.vetoPowerActive = false →
        ((AgentThemis.triggerSafetyAlert themisWired [criticalViolation] "odysseus").all
          (fun m => m.messageType != "emergency_command")) = true) :=
  critical_batch_veto_halts_exactly_once themisWired [criticalViolation]
    "odysseus" "prometheus-master" (by decide) (by decide)

end Prometheus
